import Mathlib

/-!
Verification of the `pgo` CLI plugin (internal/cmd/show.go and
internal/cmd/create.go) against its natural-language specification.

The Go code is shallowly embedded: pure string manipulation becomes Lean
string functions, and the two cobra `RunE` closures become Lean functions
over an explicit environment record that injects the results of the external
Kubernetes client calls (configuration loading, pod listing, pod exec).
Captured output is returned as a string; an error return becomes
`Option String`.
-/

set_option autoImplicit false

namespace PgoClient

/-- Characters of `s` begin with the characters of `pre`.  Models the prefix
test performed by Go `strings.TrimPrefix` (Go package strings:
`strings.HasPrefix`), at the character-list level. -/
def listStartsWith : List Char → List Char → Bool
  | [], _ => true
  | _ :: _, [] => false
  | p :: ps, c :: cs => p == c && listStartsWith ps cs

/-- Models Go `strings.TrimPrefix pre s` (show.go line 96 uses it as
`strings.TrimPrefix(repoName, "repo")`): if `s` starts with `pre`, the rest
of `s` after `pre`; otherwise `s` unchanged. -/
def trimLeading (pre s : String) : String :=
  if listStartsWith pre.data s.data then String.mk (s.data.drop pre.data.length) else s

/-- Substring containment: `pat` occurs contiguously inside `s`. -/
def strContains (s pat : String) : Prop :=
  ∃ a b : String, s = a ++ pat ++ b

/-- Result of running a remote command: captured stdout text, captured stderr
text, and the error returned by the transport (`nil` becomes `none`). -/
abbrev ExecResult := String × String × Option String

/-- Executor calls commands (show.go lines 33-36).  In the source an
`Executor` receives stdin and stdout/stderr sinks and returns `error`; here
the sinks' final contents and the error are returned directly.  The `stdin`
argument is dropped because every call site in show.go passes `nil`. -/
abbrev Executor := List String → ExecResult

/-- Shell command text built by `Executor.pgBackRestInfo` (show.go lines
165-170): `pgbackrest info --output=<output>` with ` --repo=<repoNum>`
appended exactly when `repoNum` is non-empty. -/
def pgBackRestCommand (output repoNum : String) : String :=
  let command := "pgbackrest info --output=" ++ output
  if repoNum != "" then command ++ " --repo=" ++ repoNum else command

/-- Models `Executor.pgBackRestInfo` (show.go lines 162-174): builds the
command text and runs it through the executor wrapped in
`bash -ceu -- <command>`, returning captured stdout, stderr and the
transport error. -/
def pgBackRestInfo (exec : Executor) (output repoNum : String) : ExecResult :=
  exec ["bash", "-ceu", "--", pgBackRestCommand output repoNum]

/-- Name and namespace of a Kubernetes pod, the two fields of the listed pod
objects that show.go reads (`pods.Items[0].GetNamespace()`,
`pods.Items[0].GetName()`). -/
structure Pod where
  namespaceName : String
  podName : String
  deriving DecidableEq

/-- Modelled from the spec: `util.PrimaryInstanceLabels` (not under src/) is,
per spec section 4.2, the deterministic label-selector string
`postgres-operator.crunchydata.com/cluster=<name>,postgres-operator.crunchydata.com/data=postgres,postgres-operator.crunchydata.com/role=master`. -/
def primaryInstanceLabels (cluster : String) : String :=
  "postgres-operator.crunchydata.com/cluster=" ++ cluster ++
    ",postgres-operator.crunchydata.com/data=postgres,postgres-operator.crunchydata.com/role=master"

/-- Modelled from the spec: `util.ContainerDatabase` (not under src/) is the
string constant naming the database container (spec section 3,
PodReference). -/
def containerDatabase : String := "database"

/-- Modelled external library behavior: Go `fmt` applied to a format string
with NO operands, which is what `cmd.Printf(stdout)` at show.go line 151
does.  For format strings free of flag/width/precision directives (all that
this development evaluates the model on): `%%` prints `%`, `%` followed by a
verb character with no operand left prints `%!<verb>(MISSING)`, a trailing
lone `%` prints `%!(NOVERB)`, and every other character is copied
verbatim. -/
def goFormatNoArgsAux : List Char → List Char
  | [] => []
  | ['%'] => "%!(NOVERB)".data
  | '%' :: '%' :: rest => '%' :: goFormatNoArgsAux rest
  | '%' :: c :: rest => "%!".data ++ c :: "(MISSING)".data ++ goFormatNoArgsAux rest
  | c :: rest => c :: goFormatNoArgsAux rest

/-- String-level wrapper around `goFormatNoArgsAux`: the text actually
written by `cmd.Printf(stdout)` (show.go line 151). -/
def goFormatNoArgs (s : String) : String :=
  String.mk (goFormatNoArgsAux s.data)

/-- Text written by `cmd.Printf("\nError returned: %s\n", stderr)` (show.go
line 153).  The format string is constant with a single `%s` verb matched by
the `stderr` operand, so Go fmt emits the operand verbatim in place of
`%s`. -/
def errorReturnedLine (stderr : String) : String :=
  "\nError returned: " ++ stderr ++ "\n"

/-- Outcome of one pod-exec transport call: what the remote process wrote to
stdout and stderr, its exit status, and the transport-level failure if any.
The exit status is carried as data so that theorems can quantify over it. -/
structure RemoteProcess where
  stdout : String
  stderr : String
  exitCode : Nat
  deriving DecidableEq

/-- Modelled from the spec: the pod executor produced by
`util.NewPodExecutor` (not under src/).  Per spec section 4.3 it copies the
remote process's stdout/stderr into the provided sinks and returns an error
only for connection/authentication/stream failure; a non-zero remote exit
status is NOT surfaced as a Go-level error, so the returned error is exactly
the transport error, independent of `proc.exitCode`.  Arguments mirror
`PodExec(namespace, podName, containerName, ..., command...)`. -/
def specPodExec (transport : Option String) (proc : RemoteProcess) :
    String → String → String → List String → ExecResult :=
  fun _ _ _ _ => (proc.stdout, proc.stderr, transport)

/-- Results of the external Kubernetes client calls made by the `show backup`
`RunE` closure (show.go lines 91-157), injected as data: REST config
loading, dynamic client construction, namespace resolution, the pod list
call (a function of namespace and label selector), and pod-executor
construction (a function of pod namespace, pod name, container and command
vector). -/
structure ShowBackupEnv where
  toRESTConfig : Except String Unit
  newForConfig : Except String Unit
  namespaceOf : Except String String
  listPods : String → String → Except String (List Pod)
  newPodExecutor : Except String (String → String → String → List String → ExecResult)

/-- Models the `show backup` `RunE` closure (show.go lines 91-157).  Returns
the text printed on the command's output stream together with the returned
error (`none` for a `nil` return).  Each external call is consulted in
source order; the first failure is returned and nothing is printed.  The
pod-count guard `len(pods.Items) != 1` (line 130) is rendered as a match on
a single-element list; the success path targets `pods.Items[0]` with the
database container. -/
def showBackupRunE (env : ShowBackupEnv) (clusterName output repoName : String) :
    String × Option String :=
  let repoNum := trimLeading "repo" repoName
  match env.toRESTConfig with
  | .error e => ("", some e)
  | .ok _ =>
    match env.newForConfig with
    | .error e => ("", some e)
    | .ok _ =>
      match env.namespaceOf with
      | .error e => ("", some e)
      | .ok ns =>
        match env.listPods ns (primaryInstanceLabels clusterName) with
        | .error e => ("", some e)
        | .ok pods =>
          match pods with
          | [pod] =>
            match env.newPodExecutor with
            | .error e => ("", some e)
            | .ok podExec =>
              match pgBackRestInfo
                  (fun command =>
                    podExec pod.namespaceName pod.podName containerDatabase command)
                  output repoNum with
              | (_, _, some e) => ("", some e)
              | (stdout, stderr, none) =>
                if stderr != "" then (goFormatNoArgs stdout ++ errorReturnedLine stderr, none)
                else (goFormatNoArgs stdout, none)
          | _ => ("", some "Primary instance Pod not found.")

/-- Value a YAML plain scalar resolves to under the YAML 1.1 core schema
used by the Go YAML stack (`k8s.io/apimachinery/pkg/util/yaml` delegating to
sigs.k8s.io/yaml over gopkg.in/yaml.v2), restricted to the kinds this
development needs. -/
inductive YamlScalar where
  | str (s : String)
  | boolVal (b : Bool)
  | intVal (n : Int)
  | nullVal
  deriving DecidableEq

/-- Modelled external library behavior: the plain scalars gopkg.in/yaml.v2
resolves to boolean `true` (YAML 1.1 bool words). -/
def yamlTrueWords : List String :=
  ["y", "Y", "yes", "Yes", "YES", "on", "On", "ON", "true", "True", "TRUE"]

/-- Modelled external library behavior: the plain scalars gopkg.in/yaml.v2
resolves to boolean `false` (YAML 1.1 bool words). -/
def yamlFalseWords : List String :=
  ["n", "N", "no", "No", "NO", "off", "Off", "OFF", "false", "False", "FALSE"]

/-- Modelled external library behavior: the plain scalars gopkg.in/yaml.v2
resolves to null. -/
def yamlNullWords : List String := ["", "~", "null", "Null", "NULL"]

/-- Modelled external library behavior: a sufficient condition for
gopkg.in/yaml.v2 to resolve a plain scalar to itself as a string: the text
starts with an ASCII letter (so the numeric resolvers, which trigger on a
leading digit, sign or dot, never fire), contains only ASCII letters,
digits and hyphens (so it stays one plain scalar on its line of the
template and carries no YAML indicator characters), and is none of the
YAML 1.1 boolean/null words. -/
def yamlResolvesAsItself (s : String) : Bool :=
  (match s.data with
    | c :: _ => c.isAlpha
    | [] => false) &&
  s.data.all (fun c => c.isAlpha || c.isDigit || c == '-') &&
  !(yamlTrueWords.contains s) && !(yamlFalseWords.contains s) && !(yamlNullWords.contains s)

/-- One entry of `spec.instances` in the template of
`generateUnstructuredClusterYaml` (create.go lines 113-119): a data volume
claim with access modes and a storage request. -/
structure VolumeClaimSpec where
  accessModes : List String
  storageRequest : String
  deriving DecidableEq

/-- One instance set of the cluster template (create.go lines 113-119). -/
structure InstanceSpec where
  dataVolumeClaimSpec : VolumeClaimSpec
  deriving DecidableEq

/-- One pgBackRest repository of the cluster template (create.go lines
120-130). -/
structure RepoSpec where
  repoName : String
  volume : VolumeClaimSpec
  deriving DecidableEq

/-- The `spec` section of the cluster template (create.go lines 111-130). -/
structure PGClusterSpec where
  postgresVersion : Int
  instances : List InstanceSpec
  backupRepos : List RepoSpec
  deriving DecidableEq

/-- Structured form of the unstructured PostgresCluster object produced by
parsing the template of `generateUnstructuredClusterYaml` (create.go lines
104-138).  `name` is a `YamlScalar` because the user-supplied name is
spliced into the template unquoted, so YAML resolution decides its type. -/
structure PGCluster where
  apiVersion : String
  kind : String
  name : YamlScalar
  spec : PGClusterSpec
  deriving DecidableEq

/-- The volume claim appearing (twice) in the fixed template: access mode
`ReadWriteOnce`, storage request `1Gi` (create.go lines 114-119 and
125-130). -/
def defaultVolumeClaim : VolumeClaimSpec :=
  { accessModes := ["ReadWriteOnce"], storageRequest := "1Gi" }

/-- The fixed template of create.go lines 106-131 with the `metadata.name`
scalar produced by YAML resolution of the spliced name. -/
def clusterFromTemplate (nameScalar : YamlScalar) : PGCluster :=
  { apiVersion := "postgres-operator.crunchydata.com/v1beta1"
    kind := "PostgresCluster"
    name := nameScalar
    spec :=
      { postgresVersion := 14
        instances := [{ dataVolumeClaimSpec := defaultVolumeClaim }]
        backupRepos := [{ repoName := "repo1", volume := defaultVolumeClaim }] } }

/-- Models `generateUnstructuredClusterYaml` (create.go lines 104-138): the
name is spliced unquoted into the static YAML template via `fmt.Sprintf` and
the text is parsed by `yaml.Unmarshal`.  The external parser is modelled on
the plain-scalar fragment described at `yamlResolvesAsItself` plus the YAML
boolean words; names outside that modelled fragment are reported as an error
marker rather than given an unfaithful value. -/
def generateUnstructuredClusterYaml (name : String) : Except String PGCluster :=
  if yamlResolvesAsItself name then .ok (clusterFromTemplate (.str name))
  else if yamlTrueWords.contains name then .ok (clusterFromTemplate (.boolVal true))
  else if yamlFalseWords.contains name then .ok (clusterFromTemplate (.boolVal false))
  else .error "name outside the modelled YAML scalar fragment"

/-- Models `unstructured.Unstructured.GetName()` on the object echoed by the
API server (create.go line 94): the `metadata.name` field when it is a
string, and the empty string otherwise (`NestedString` returns `""` when the
field is absent or not a string). -/
def unstructuredGetName (c : PGCluster) : String :=
  match c.name with
  | .str s => s
  | _ => ""

/-- Results of the external Kubernetes client calls made by the
`create postgrescluster` `RunE` closure (create.go lines 57-97): namespace
resolution, REST config loading, dynamic client construction, and the
`Create` call (a function of namespace and submitted object returning the
object echoed by the server). -/
structure CreateEnv where
  namespaceOf : Except String String
  toRESTConfig : Except String Unit
  newForConfig : Except String Unit
  create : String → PGCluster → Except String PGCluster

/-- Models the `create postgrescluster` `RunE` closure (create.go lines
57-97).  Returns the printed text and the returned error.  On success the
closure prints `postgresclusters/<server-echoed name> created` followed by a
newline, via `cmd.Printf("postgresclusters/%s created\n", u.GetName())`
whose constant format has a single `%s` verb matched by the operand. -/
def createClusterRunE (env : CreateEnv) (clusterName : String) :
    String × Option String :=
  match env.namespaceOf with
  | .error e => ("", some e)
  | .ok ns =>
    match env.toRESTConfig with
    | .error e => ("", some e)
    | .ok _ =>
      match env.newForConfig with
      | .error e => ("", some e)
      | .ok _ =>
        match generateUnstructuredClusterYaml clusterName with
        | .error e => ("", some e)
        | .ok cluster =>
          match env.create ns cluster with
          | .error e => ("", some e)
          | .ok u => ("postgresclusters/" ++ unstructuredGetName u ++ " created\n", none)

/- Concrete environments used to exercise the model at specific inputs. -/

/-- The single primary-instance pod used by the concrete environments. -/
def samplePod : Pod := { namespaceName := "default", podName := "hippo-instance1-abcd-0" }

/-- Environment whose pod lookup returns no pods; every other external call
succeeds. -/
def envNoPods : ShowBackupEnv :=
  { toRESTConfig := .ok ()
    newForConfig := .ok ()
    namespaceOf := .ok "default"
    listPods := fun _ _ => .ok []
    newPodExecutor := .ok (fun _ _ _ _ => ("", "", none)) }

/-- Environment whose pod lookup returns two pods (ambiguous primary). -/
def envTwoPods : ShowBackupEnv :=
  { toRESTConfig := .ok ()
    newForConfig := .ok ()
    namespaceOf := .ok "default"
    listPods := fun _ _ => .ok [samplePod, { namespaceName := "default", podName := "hippo-instance1-efgh-0" }]
    newPodExecutor := .ok (fun _ _ _ _ => ("", "", none)) }

/-- Environment whose exec transport fails after producing partial output. -/
def envExecError : ShowBackupEnv :=
  { toRESTConfig := .ok ()
    newForConfig := .ok ()
    namespaceOf := .ok "default"
    listPods := fun _ _ => .ok [samplePod]
    newPodExecutor := .ok (fun _ _ _ _ => ("partial stdout", "partial stderr", some "exec transport failed")) }

/-- Environment whose remote command writes `50%s` to stdout and nothing to
stderr, with a healthy transport. -/
def envPercentStdout : ShowBackupEnv :=
  { toRESTConfig := .ok ()
    newForConfig := .ok ()
    namespaceOf := .ok "default"
    listPods := fun _ _ => .ok [samplePod]
    newPodExecutor := .ok (fun _ _ _ _ => ("50%s", "", none)) }

/-- Environment whose remote command writes `text info` to stdout and nothing
to stderr, with a healthy transport (the spec's mock-executor scenario). -/
def envTextInfo : ShowBackupEnv :=
  { toRESTConfig := .ok ()
    newForConfig := .ok ()
    namespaceOf := .ok "default"
    listPods := fun _ _ => .ok [samplePod]
    newPodExecutor := .ok (fun _ _ _ _ => ("text info", "", none)) }

/-- Environment whose remote command writes both stdout text and a non-empty
stderr, with a healthy transport. -/
def envStderr : ShowBackupEnv :=
  { toRESTConfig := .ok ()
    newForConfig := .ok ()
    namespaceOf := .ok "default"
    listPods := fun _ _ => .ok [samplePod]
    newPodExecutor := .ok (fun _ _ _ _ => ("backup info text", "WARN: stanza", none)) }

/-- Remote process that exits non-zero while still writing useful output. -/
def procNonzero : RemoteProcess :=
  { stdout := "backup info", stderr := "pgbackrest warning", exitCode := 1 }

/-- Environment whose executor is the spec-modelled pod executor applied to a
remote process that exits non-zero, with a healthy transport. -/
def envNonzeroExit : ShowBackupEnv :=
  { toRESTConfig := .ok ()
    newForConfig := .ok ()
    namespaceOf := .ok "default"
    listPods := fun _ _ => .ok [samplePod]
    newPodExecutor := .ok (specPodExec none procNonzero) }

/-- Create-command environment whose API server echoes the submitted
object. -/
def envEcho : CreateEnv :=
  { namespaceOf := .ok "default"
    toRESTConfig := .ok ()
    newForConfig := .ok ()
    create := fun _ c => .ok c }

/- Helper lemmas about the string model. -/

theorem listStartsWith_append (p s : List Char) : listStartsWith p (p ++ s) = true := by
  induction p with
  | nil => rfl
  | cons c cs ih => simp [listStartsWith, ih]

theorem trimLeading_append (pre s : String) : trimLeading pre (pre ++ s) = s := by
  have hdata : (pre ++ s).data = pre.data ++ s.data := rfl
  unfold trimLeading
  rw [hdata, listStartsWith_append]
  simp

theorem trimLeading_of_not_starts (pre s : String)
    (h : listStartsWith pre.data s.data = false) : trimLeading pre s = s := by
  unfold trimLeading
  rw [h]
  simp

theorem strAppend_assoc (a b c : String) : a ++ b ++ c = a ++ (b ++ c) :=
  congrArg String.mk (List.append_assoc a.data b.data c.data)

theorem strExt {a b : String} (h : a.data = b.data) : a = b := by
  obtain ⟨la⟩ := a
  obtain ⟨lb⟩ := b
  cases h
  rfl

theorem strData_append (a b : String) : (a ++ b).data = a.data ++ b.data := rfl

theorem pgBackRestCommand_empty (output : String) :
    pgBackRestCommand output "" = "pgbackrest info --output=" ++ output := rfl

theorem pgBackRestCommand_nonempty (output r : String) (h : r ≠ "") :
    pgBackRestCommand output r = "pgbackrest info --output=" ++ output ++ " --repo=" ++ r := by
  unfold pgBackRestCommand
  simp [h]

theorem pgBackRestCommand_contains_output (output r : String) :
    strContains (pgBackRestCommand output r) ("--output=" ++ output) := by
  by_cases h : r = ""
  · subst h
    refine ⟨"pgbackrest info ", "", ?_⟩
    rw [pgBackRestCommand_empty]
    apply strExt
    simp [strData_append, List.append_assoc]
  · refine ⟨"pgbackrest info ", " --repo=" ++ r, ?_⟩
    rw [pgBackRestCommand_nonempty output r h]
    apply strExt
    simp [strData_append, List.append_assoc]

theorem pgBackRestCommand_contains_repo (output r : String) (h : r ≠ "") :
    strContains (pgBackRestCommand output r) ("--repo=" ++ r) := by
  refine ⟨"pgbackrest info --output=" ++ output ++ " ", "", ?_⟩
  rw [pgBackRestCommand_nonempty output r h]
  apply strExt
  simp [strData_append, List.append_assoc]


/- Claim theorems. -/

/-- C4: for every `--repoName` value of the form `repo<suffix>` with a
non-empty suffix, the literal `repo` text is stripped, the executor receives
the command built from the bare suffix, and that command text contains
`--repo=<suffix>`; the suffix is passed through unchanged whether or not it
is numeric. -/
theorem repoName_suffix_stripped (output suffix : String) (h : suffix ≠ "") :
    trimLeading "repo" ("repo" ++ suffix) = suffix ∧
    (∀ exec : Executor,
      pgBackRestInfo exec output (trimLeading "repo" ("repo" ++ suffix))
        = exec ["bash", "-ceu", "--", pgBackRestCommand output suffix]) ∧
    strContains (pgBackRestCommand output suffix) ("--repo=" ++ suffix) := by
  have ht := trimLeading_append "repo" suffix
  refine ⟨ht, ?_, pgBackRestCommand_contains_repo output suffix h⟩
  intro exec
  rw [ht]
  rfl

/-- Witness for C4 at `--repoName=repo2`: the derived repo number is `2` and
the command built for the executor is `pgbackrest info --output=text
--repo=2`, which contains `--repo=2`. -/
theorem repoName_suffix_stripped_witness :
    trimLeading "repo" "repo2" = "2" ∧
    pgBackRestCommand "text" "2" = "pgbackrest info --output=text --repo=2" := by
  have h := repoName_suffix_stripped "text" "2" (by decide)
  have h1 := h.1
  rw [show ("repo" ++ "2" : String) = "repo2" from rfl] at h1
  refine ⟨h1, ?_⟩
  have h2 := h.2.1 (fun _ => ("", "", none))
  rfl

/-- C6: `pgBackRestInfo` hands the executor exactly the shell wrapper
`bash -ceu -- <command>` where `<command>` is
`pgbackrest info --output=<output>`, extended by ` --repo=<repoNum>` if and
only if `repoNum` is non-empty; the command text contains
`--output=<output>`. -/
theorem pgBackRestInfo_command_shape (exec : Executor) (output r : String) :
    pgBackRestInfo exec output r = exec ["bash", "-ceu", "--", pgBackRestCommand output r] ∧
    (r = "" → pgBackRestCommand output r = "pgbackrest info --output=" ++ output) ∧
    (r ≠ "" → pgBackRestCommand output r
        = "pgbackrest info --output=" ++ output ++ " --repo=" ++ r) ∧
    strContains (pgBackRestCommand output r) ("--output=" ++ output) := by
  refine ⟨rfl, ?_, ?_, pgBackRestCommand_contains_output output r⟩
  · intro he
    subst he
    rfl
  · intro hne
    exact pgBackRestCommand_nonempty output r hne

/-- Witness for C6 at `--output=json`, repo number `2`: the generated command
is `pgbackrest info --output=json --repo=2`, containing `--output=json`. -/
theorem pgBackRestInfo_command_shape_witness :
    pgBackRestCommand "json" "2" = "pgbackrest info --output=json --repo=2" ∧
    strContains (pgBackRestCommand "json" "2") ("--output=" ++ "json") := by
  have h := pgBackRestInfo_command_shape (fun _ => ("", "", none)) "json" "2"
  refine ⟨?_, h.2.2.2⟩
  have h2 := h.2.2.1 (by decide)
  rw [h2]
  rfl

/-- C9: a `--repoName` value that is empty or exactly `repo` yields an empty
repo number and a command with no `--repo=` flag, while a non-empty value
that does not start with `repo` is used whole, unchanged, as the `--repo=`
argument. -/
theorem repoName_empty_or_repo_no_flag (output s : String) :
    ((s = "" ∨ s = "repo") →
      trimLeading "repo" s = "" ∧
      pgBackRestCommand output (trimLeading "repo" s)
        = "pgbackrest info --output=" ++ output) ∧
    (listStartsWith "repo".data s.data = false →
      trimLeading "repo" s = s ∧
      (s ≠ "" → pgBackRestCommand output (trimLeading "repo" s)
          = "pgbackrest info --output=" ++ output ++ " --repo=" ++ s)) := by
  constructor
  · rintro (he | he) <;> subst he <;> exact ⟨rfl, rfl⟩
  · intro hns
    have ht := trimLeading_of_not_starts "repo" s hns
    refine ⟨ht, fun hne => ?_⟩
    rw [ht]
    exact pgBackRestCommand_nonempty output s hne

/-- Witness for C9: `--repoName=repo` gives a command with no `--repo=` flag,
and `--repoName=other` (which does not start with `repo`) is used whole. -/
theorem repoName_empty_or_repo_no_flag_witness :
    (trimLeading "repo" "repo" = "" ∧
      pgBackRestCommand "text" (trimLeading "repo" "repo")
        = "pgbackrest info --output=text") ∧
    (trimLeading "repo" "other" = "other" ∧
      pgBackRestCommand "text" (trimLeading "repo" "other")
        = "pgbackrest info --output=text --repo=other") := by
  constructor
  · have h := (repoName_empty_or_repo_no_flag "text" "repo").1 (Or.inr rfl)
    exact ⟨h.1, by rw [h.2]; rfl⟩
  · have h := (repoName_empty_or_repo_no_flag "text" "other").2 (by decide)
    refine ⟨h.1, ?_⟩
    have h2 := h.2 (by decide)
    rw [h2]
    rfl

/-- C1 (amended): whenever the primary-instance label lookup succeeds but
returns a pod count other than one, `show backup` fails with the error
message `Primary instance Pod not found.` (with its trailing period) and
prints nothing; the environment — in particular the pod executor — is
universally quantified, so the result is the same for every executor, which
is therefore never consulted, and the error is literally the same for zero
matches and for multiple matches. -/
theorem showBackup_primary_pod_lookup_error
    (env : ShowBackupEnv) (clusterName output repoName ns : String) (pods : List Pod)
    (hc : env.toRESTConfig = .ok ()) (hd : env.newForConfig = .ok ())
    (hn : env.namespaceOf = .ok ns)
    (hp : env.listPods ns (primaryInstanceLabels clusterName) = .ok pods)
    (hlen : pods.length ≠ 1) :
    showBackupRunE env clusterName output repoName
      = ("", some "Primary instance Pod not found.") := by
  cases pods with
  | nil => simp [showBackupRunE, hc, hd, hn, hp]
  | cons a t =>
    cases t with
    | nil => exact absurd rfl hlen
    | cons b t2 => simp [showBackupRunE, hc, hd, hn, hp]

/-- Witness for C1: with zero matching pods and with two matching pods the
command returns the identical lookup error and prints nothing. -/
theorem showBackup_primary_pod_lookup_error_witness :
    showBackupRunE envNoPods "hippo" "text" ""
      = ("", some "Primary instance Pod not found.") ∧
    showBackupRunE envTwoPods "hippo" "json" "repo1"
      = ("", some "Primary instance Pod not found.") := by
  constructor
  · exact showBackup_primary_pod_lookup_error envNoPods "hippo" "text" "" "default" []
      rfl rfl rfl rfl (by decide)
  · exact showBackup_primary_pod_lookup_error envTwoPods "hippo" "json" "repo1" "default"
      [samplePod, { namespaceName := "default", podName := "hippo-instance1-efgh-0" }]
      rfl rfl rfl rfl (by decide)

/-- Counterexample for C1 as stated: the error message carried by the
failure has a trailing period, so it is not the string
`Primary instance Pod not found` that the claim quotes. -/
theorem showBackup_lookup_error_message_has_period :
    showBackupRunE envNoPods "hippo" "text" ""
      = ("", some "Primary instance Pod not found.") ∧
    (some "Primary instance Pod not found." : Option String)
      ≠ some "Primary instance Pod not found" := by
  exact ⟨rfl, by decide⟩

/-- C10: whenever the executor returns a non-nil error, `show backup`
returns exactly that error and prints nothing — neither the captured stdout
nor the captured stderr reaches the output, even when both are non-empty. -/
theorem showBackup_exec_error_prints_nothing
    (env : ShowBackupEnv) (clusterName output repoName ns : String) (pod : Pod)
    (pe : String → String → String → List String → ExecResult)
    (so se e : String)
    (hc : env.toRESTConfig = .ok ()) (hd : env.newForConfig = .ok ())
    (hn : env.namespaceOf = .ok ns)
    (hp : env.listPods ns (primaryInstanceLabels clusterName) = .ok [pod])
    (hx : env.newPodExecutor = .ok pe)
    (hr : pe pod.namespaceName pod.podName containerDatabase
        ["bash", "-ceu", "--", pgBackRestCommand output (trimLeading "repo" repoName)]
        = (so, se, some e)) :
    showBackupRunE env clusterName output repoName = ("", some e) := by
  simp [showBackupRunE, hc, hd, hn, hp, hx, pgBackRestInfo, hr]

/-- Witness for C10: an exec transport failure after partial stdout and
stderr output yields exactly that error and an empty output stream. -/
theorem showBackup_exec_error_prints_nothing_witness :
    showBackupRunE envExecError "hippo" "text" "" = ("", some "exec transport failed") := by
  exact showBackup_exec_error_prints_nothing envExecError "hippo" "text" "" "default"
    samplePod
    (fun _ _ _ _ => ("partial stdout", "partial stderr", some "exec transport failed"))
    "partial stdout" "partial stderr" "exec transport failed"
    rfl rfl rfl rfl rfl rfl

/-- C3 (code bug): the captured stdout is printed through
`cmd.Printf(stdout)`, i.e. as a Printf FORMAT string with no operands, so a
stdout containing a format verb is not relayed verbatim: stdout `50%s`
prints `50%!s(MISSING)`.  The claim's concrete scenario (stdout `text info`,
empty stderr) does print exactly `text info` with no error line, because
that text contains no verb. -/
theorem showBackup_stdout_not_verbatim :
    showBackupRunE envPercentStdout "hippo" "text" "" = ("50%!s(MISSING)", none) ∧
    ("50%!s(MISSING)" : String) ≠ "50%s" ∧
    showBackupRunE envTextInfo "hippo" "text" "" = ("text info", none) := by
  exact ⟨rfl, by decide, rfl⟩

/-- C5: on a successful exec, a non-empty captured stderr makes the command
print, after the stdout content, a newline followed by a line reading
`Error returned: <stderr>`, while an empty stderr leaves the output exactly
the printed stdout with no such line. -/
theorem showBackup_stderr_error_returned_line
    (env : ShowBackupEnv) (clusterName output repoName ns : String) (pod : Pod)
    (pe : String → String → String → List String → ExecResult)
    (so se : String)
    (hc : env.toRESTConfig = .ok ()) (hd : env.newForConfig = .ok ())
    (hn : env.namespaceOf = .ok ns)
    (hp : env.listPods ns (primaryInstanceLabels clusterName) = .ok [pod])
    (hx : env.newPodExecutor = .ok pe)
    (hr : pe pod.namespaceName pod.podName containerDatabase
        ["bash", "-ceu", "--", pgBackRestCommand output (trimLeading "repo" repoName)]
        = (so, se, none)) :
    (se ≠ "" → showBackupRunE env clusterName output repoName
        = (goFormatNoArgs so ++ ("\nError returned: " ++ se ++ "\n"), none)) ∧
    (se = "" → showBackupRunE env clusterName output repoName
        = (goFormatNoArgs so, none)) := by
  constructor
  · intro hne
    simp [showBackupRunE, hc, hd, hn, hp, hx, pgBackRestInfo, hr, hne, errorReturnedLine]
  · intro he
    subst he
    simp [showBackupRunE, hc, hd, hn, hp, hx, pgBackRestInfo, hr]

/-- Witness for C5: with stderr `WARN: stanza` the output stream carries the
stdout text followed by the `Error returned:` line, and with empty stderr
(`text info` scenario) it carries the stdout text alone. -/
theorem showBackup_stderr_error_returned_line_witness :
    showBackupRunE envStderr "hippo" "text" ""
      = ("backup info text\nError returned: WARN: stanza\n", none) ∧
    showBackupRunE envTextInfo "hippo" "json" ""
      = ("text info", none) := by
  constructor
  · have h := (showBackup_stderr_error_returned_line envStderr "hippo" "text" "" "default"
      samplePod (fun _ _ _ _ => ("backup info text", "WARN: stanza", none))
      "backup info text" "WARN: stanza" rfl rfl rfl rfl rfl rfl).1 (by decide)
    rw [h]
    rfl
  · have h := (showBackup_stderr_error_returned_line envTextInfo "hippo" "json" "" "default"
      samplePod (fun _ _ _ _ => ("text info", "", none))
      "text info" "" rfl rfl rfl rfl rfl rfl).2 rfl
    rw [h]
    rfl

/-- C2: with the spec-modelled pod executor, whose error return is the
transport error alone, a run of `show backup` that gets past client
configuration fails exactly when the pod lookup fails (an error or a pod
count other than one) or the exec transport fails — for every remote
process, whatever its exit code; and when the lookup finds the one primary
pod, the transport is healthy and the remote process exits non-zero, the
command still succeeds and still prints the captured output. -/
theorem showBackup_remote_nonzero_exit_not_failure
    (env : ShowBackupEnv) (clusterName output repoName ns : String)
    (proc : RemoteProcess) (transport : Option String)
    (hc : env.toRESTConfig = .ok ()) (hd : env.newForConfig = .ok ())
    (hn : env.namespaceOf = .ok ns)
    (hx : env.newPodExecutor = .ok (specPodExec transport proc)) :
    ((showBackupRunE env clusterName output repoName).2 = none ↔
      (∃ pod : Pod,
        env.listPods ns (primaryInstanceLabels clusterName) = .ok [pod]) ∧
      transport = none) ∧
    (∀ pod : Pod,
      env.listPods ns (primaryInstanceLabels clusterName) = .ok [pod] →
      transport = none → proc.exitCode ≠ 0 →
      showBackupRunE env clusterName output repoName
        = (if proc.stderr != "" then
            (goFormatNoArgs proc.stdout ++ errorReturnedLine proc.stderr, none)
          else (goFormatNoArgs proc.stdout, none))) := by
  constructor
  · cases hlist : env.listPods ns (primaryInstanceLabels clusterName) with
    | error e =>
      have hres : showBackupRunE env clusterName output repoName = ("", some e) := by
        simp [showBackupRunE, hc, hd, hn, hlist]
      rw [hres]
      simp
    | ok pods =>
      cases pods with
      | nil =>
        have hres : showBackupRunE env clusterName output repoName
            = ("", some "Primary instance Pod not found.") := by
          simp [showBackupRunE, hc, hd, hn, hlist]
        rw [hres]
        simp
      | cons a t =>
        cases t with
        | nil =>
          cases transport with
          | some te =>
            have hres : showBackupRunE env clusterName output repoName = ("", some te) := by
              simp [showBackupRunE, hc, hd, hn, hlist, hx, pgBackRestInfo, specPodExec]
            rw [hres]
            simp
          | none =>
            have hres : showBackupRunE env clusterName output repoName
                = (if proc.stderr != "" then
                    (goFormatNoArgs proc.stdout ++ errorReturnedLine proc.stderr, none)
                  else (goFormatNoArgs proc.stdout, none)) := by
              simp [showBackupRunE, hc, hd, hn, hlist, hx, pgBackRestInfo, specPodExec,
                errorReturnedLine]
            rw [hres]
            constructor
            · intro _
              exact ⟨⟨a, rfl⟩, rfl⟩
            · intro _
              by_cases hs : proc.stderr != "" <;> simp [hs]
        | cons b t2 =>
          have hres : showBackupRunE env clusterName output repoName
              = ("", some "Primary instance Pod not found.") := by
            simp [showBackupRunE, hc, hd, hn, hlist]
          rw [hres]
          simp
  · intro pod hpod htr _
    subst htr
    simp [showBackupRunE, hc, hd, hn, hpod, hx, pgBackRestInfo, specPodExec, errorReturnedLine]

/-- Witness for C2: a remote process with exit code 1 and a warning on
stderr, reached through a healthy transport, leaves the command successful
(`nil` error) and its captured stdout and stderr on the output stream. -/
theorem showBackup_remote_nonzero_exit_not_failure_witness :
    showBackupRunE envNonzeroExit "hippo" "text" ""
      = ("backup info\nError returned: pgbackrest warning\n", none) := by
  have h := (showBackup_remote_nonzero_exit_not_failure envNonzeroExit "hippo" "text" ""
    "default" procNonzero none rfl rfl rfl rfl).2 samplePod rfl rfl (by decide)
  rw [h]
  rfl

/-- C7 (amended): for every name that starts with an ASCII letter, contains
only ASCII letters, digits and hyphens, and is not one of the YAML 1.1
boolean/null words (so the YAML parser resolves it as a string), the
template generator succeeds with no parse error, is a pure function with no
side effects, and returns a cluster whose metadata name equals the input
exactly and whose spec carries the fixed defaults: postgres version 14, one
instance with a 1Gi `ReadWriteOnce` storage request, and one pgBackRest
backup repository with a 1Gi volume. -/
theorem generate_cluster_name_and_defaults (name : String)
    (h : yamlResolvesAsItself name = true) :
    ∃ c : PGCluster,
      generateUnstructuredClusterYaml name = .ok c ∧
      c.name = .str name ∧
      c.apiVersion = "postgres-operator.crunchydata.com/v1beta1" ∧
      c.kind = "PostgresCluster" ∧
      c.spec.postgresVersion = 14 ∧
      c.spec.instances.length = 1 ∧
      (∀ i ∈ c.spec.instances,
        i.dataVolumeClaimSpec.storageRequest = "1Gi" ∧
        i.dataVolumeClaimSpec.accessModes = ["ReadWriteOnce"]) ∧
      c.spec.backupRepos.length = 1 ∧
      (∀ rp ∈ c.spec.backupRepos,
        rp.repoName = "repo1" ∧ rp.volume.storageRequest = "1Gi") := by
  refine ⟨clusterFromTemplate (.str name), ?_, rfl, rfl, rfl, rfl, rfl, ?_, rfl, ?_⟩
  · simp [generateUnstructuredClusterYaml, h]
  · intro i hi
    have := List.mem_singleton.mp hi
    subst this
    exact ⟨rfl, rfl⟩
  · intro rp hrp
    have := List.mem_singleton.mp hrp
    subst this
    exact ⟨rfl, rfl⟩

/-- Witness for C7 at the name `hippo`: the generator succeeds and the
produced cluster's metadata name is the string `hippo` with the fixed
defaults. -/
theorem generate_cluster_name_and_defaults_witness :
    ∃ c : PGCluster,
      generateUnstructuredClusterYaml "hippo" = .ok c ∧
      c.name = .str "hippo" ∧
      c.spec.postgresVersion = 14 := by
  obtain ⟨c, h1, h2, _, _, h5, _⟩ := generate_cluster_name_and_defaults "hippo" (by decide)
  exact ⟨c, h1, h2, h5⟩

/-- Counterexample for C7 as stated: `true` is a valid Kubernetes resource
name (a DNS-1123 label), but because the name is spliced into the YAML
template unquoted, the parser resolves `name: true` as a boolean, so the
generated object's metadata name is the boolean `true`, not the input string
`true`. -/
theorem generate_cluster_bool_name_counterexample :
    generateUnstructuredClusterYaml "true" = .ok (clusterFromTemplate (.boolVal true)) ∧
    (clusterFromTemplate (.boolVal true)).name ≠ .str "true" := by
  exact ⟨rfl, by decide⟩

/-- C8: a successful `create postgrescluster <name>` prints
`postgresclusters/<echoed> created` (newline-terminated) where `<echoed>` is
the name of the object echoed back by the API server's create call. -/
theorem createCluster_success_message
    (env : CreateEnv) (clusterName ns : String) (cluster u : PGCluster)
    (hn : env.namespaceOf = .ok ns) (hc : env.toRESTConfig = .ok ())
    (hd : env.newForConfig = .ok ())
    (hg : generateUnstructuredClusterYaml clusterName = .ok cluster)
    (hcr : env.create ns cluster = .ok u) :
    createClusterRunE env clusterName
      = ("postgresclusters/" ++ unstructuredGetName u ++ " created\n", none) := by
  simp [createClusterRunE, hn, hc, hd, hg, hcr]

/-- Witness for C8: against a server that echoes the submitted object,
creating `hippo` prints `postgresclusters/hippo created` and returns no
error. -/
theorem createCluster_success_message_witness :
    createClusterRunE envEcho "hippo" = ("postgresclusters/hippo created\n", none) := by
  have h := createCluster_success_message envEcho "hippo" "default"
    (clusterFromTemplate (.str "hippo")) (clusterFromTemplate (.str "hippo"))
    rfl rfl rfl rfl rfl
  rw [h]
  rfl

end PgoClient
